import Mathlib

/-!
Verification of the US tax calculator core
(`src/mcps/accountant/tax_calculator.py`).

Python floats are embedded as exact rationals (`ℚ`); `float(inf)`
bracket bounds are embedded as `Option ℚ` with `none` standing for the
infinite bound.  Python rounding `round(x, n)` (round-half-to-even on the
exact value) is embedded as `round2` / `round1` below.
-/

namespace TaxCalc

/-- Filing statuses of the `FilingStatus` enum in the source. -/
inductive FilingStatus
  | single
  | married_joint
  | married_separate
  | head_household
  | qualifying_widow
  deriving DecidableEq, Repr

open FilingStatus

/-- Bracket entry `(bracket_max, rate)`; `none` is `float(inf)`. -/
abbrev Bracket := Option ℚ × ℚ

/-- Numeric value of a previous-bracket bound; the `none` (infinite) case is
never reached where this is used, so it maps to a junk value. -/
def oval : Option ℚ → ℚ
  | none => 0
  | some v => v

/-- Evaluation of `min x bound` with a possibly infinite bound. -/
def obmin : Option ℚ → ℚ → ℚ
  | none, x => x
  | some b, x => min b x

/-- Test `x <= bound` with a possibly infinite bound. -/
def leOB (x : ℚ) : Option ℚ → Bool
  | none => true
  | some b => decide (x ≤ b)

/-- Test `x >= bound` with a possibly infinite bound. -/
def geOB (x : ℚ) : Option ℚ → Bool
  | none => false
  | some b => decide (b ≤ x)

/-- 2024 federal bracket table for single filers. -/
def FEDERAL_SINGLE : List Bracket :=
  [(some 11600, 0.10), (some 47150, 0.12), (some 100525, 0.22),
   (some 191950, 0.24), (some 243725, 0.32), (some 609350, 0.35),
   (none, 0.37)]

/-- FEDERAL_BRACKETS dictionary; statuses absent from the Python dict map
to `none`. -/
def FEDERAL_BRACKETS : FilingStatus → Option (List Bracket)
  | single => some FEDERAL_SINGLE
  | married_joint => some
      [(some 23200, 0.10), (some 94300, 0.12), (some 201050, 0.22),
       (some 383900, 0.24), (some 487450, 0.32), (some 731200, 0.35),
       (none, 0.37)]
  | married_separate => some
      [(some 11600, 0.10), (some 47150, 0.12), (some 100525, 0.22),
       (some 191950, 0.24), (some 243725, 0.32), (some 365600, 0.35),
       (none, 0.37)]
  | head_household => some
      [(some 16550, 0.10), (some 63100, 0.12), (some 100500, 0.22),
       (some 191950, 0.24), (some 243700, 0.32), (some 609350, 0.35),
       (none, 0.37)]
  | qualifying_widow => none

/-- STANDARD_DEDUCTION dictionary (total: every status is a key). -/
def STANDARD_DEDUCTION : FilingStatus → ℚ
  | single => 14600
  | married_joint => 29200
  | married_separate => 14600
  | head_household => 21900
  | qualifying_widow => 29200

/-- ADDITIONAL_DEDUCTION dictionary; `qualifying_widow` is absent. -/
def ADDITIONAL_DEDUCTION : FilingStatus → Option ℚ
  | single => some 1950
  | married_joint => some 1550
  | married_separate => some 1550
  | head_household => some 1950
  | qualifying_widow => none

/-- 2024 LTCG bracket table for single filers. -/
def LTCG_SINGLE : List Bracket :=
  [(some 47025, 0.00), (some 518900, 0.15), (none, 0.20)]

/-- LTCG_BRACKETS dictionary; only single and married_joint are keys. -/
def LTCG_BRACKETS : FilingStatus → Option (List Bracket)
  | single => some LTCG_SINGLE
  | married_joint => some [(some 94050, 0.00), (some 583750, 0.15), (none, 0.20)]
  | _ => none

/-- NIIT_THRESHOLD dictionary; `qualifying_widow` is absent. -/
def NIIT_THRESHOLD : FilingStatus → Option ℚ
  | single => some 200000
  | married_joint => some 250000
  | married_separate => some 125000
  | head_household => some 200000
  | qualifying_widow => none

/-- 2024 Social Security wage base. -/
def SS_WAGE_BASE : ℚ := 168600

/-- Additional Medicare rate over the 200k threshold. -/
def MEDICARE_ADDITIONAL_RATE : ℚ := 0.009

/-- STATE_TAX_RATES dictionary; unknown codes map to `none`. -/
def STATE_TAX_RATES : String → Option ℚ
  | "CA" => some 0.133
  | "NY" => some 0.109
  | "TX" => some 0.00
  | "FL" => some 0.00
  | "WA" => some 0.00
  | "NV" => some 0.00
  | "WY" => some 0.00
  | "SD" => some 0.00
  | "AK" => some 0.00
  | "TN" => some 0.00
  | "NH" => some 0.00
  | "NJ" => some 0.1075
  | "MA" => some 0.09
  | "IL" => some 0.0495
  | "PA" => some 0.0307
  | "AZ" => some 0.025
  | "CO" => some 0.044
  | "GA" => some 0.0549
  | "NC" => some 0.0525
  | "VA" => some 0.0575
  | "OH" => some 0.0399
  | "MI" => some 0.0425
  | "MN" => some 0.0985
  | "OR" => some 0.099
  | "HI" => some 0.11
  | _ => none

/-- SALT cap constant. -/
def SALT_CAP : ℚ := 10000

/-- Loop body of `calculate_federal_tax`: walk the brackets carrying the
accumulated tax, the previous bound and the current marginal rate;
`break` when `taxable_income <= prev_bracket`. -/
def federalLoop (ti : ℚ) : List Bracket → ℚ → Option ℚ → ℚ → ℚ × ℚ
  | [], tax, _, marg => (tax, marg)
  | (bmax, rate) :: rest, tax, prev, marg =>
    if leOB ti prev then (tax, marg)
    else federalLoop ti rest (tax + (obmin bmax ti - oval prev) * rate) bmax rate

/-- Embedding of `calculate_federal_tax`: returns `(tax, marginal_rate)`;
statuses missing from FEDERAL_BRACKETS fall back to the single table. -/
def calculate_federal_tax (taxable_income : ℚ) (fs : FilingStatus) : ℚ × ℚ :=
  federalLoop taxable_income ((FEDERAL_BRACKETS fs).getD FEDERAL_SINGLE) 0 (some 0) 0.10

/-- Loop body of `calculate_ltcg_tax`: the stacking walk over the
preferential brackets; `continue` while `ordinary_income >= bracket_max`,
`break` once `bracket_end >= ordinary_income + total_ltcg`. -/
def ltcgLoop (ordinary total : ℚ) : List Bracket → ℚ → Option ℚ → ℚ
  | [], tax, _ => tax
  | (bmax, rate) :: rest, tax, prev =>
    if geOB ordinary bmax then ltcgLoop ordinary total rest tax bmax
    else
      let bstart := max ordinary (oval prev)
      let bend := obmin bmax (ordinary + total)
      let tax2 := if bstart < bend then tax + (bend - bstart) * rate else tax
      if ordinary + total ≤ bend then tax2 else ltcgLoop ordinary total rest tax2 bmax

/-- Embedding of `calculate_ltcg_tax`: tax on long-term gains plus
qualified dividends stacked on top of ordinary income. -/
def calculate_ltcg_tax (ltcg qualified_dividends taxable_income : ℚ)
    (fs : FilingStatus) : ℚ :=
  let total_ltcg := ltcg + qualified_dividends
  if total_ltcg ≤ 0 then 0
  else
    ltcgLoop (taxable_income - total_ltcg) total_ltcg
      ((LTCG_BRACKETS fs).getD LTCG_SINGLE) 0 (some 0)

/-- Embedding of `calculate_se_tax`: returns `(se_tax, deduction)`. -/
def calculate_se_tax (self_employment_income : ℚ) : ℚ × ℚ :=
  if self_employment_income ≤ 0 then (0, 0)
  else
    let net_se := self_employment_income * 0.9235
    let ss_tax := min net_se SS_WAGE_BASE * 0.124
    let medicare_tax :=
      net_se * 0.029 +
        (if 200000 < net_se then (net_se - 200000) * MEDICARE_ADDITIONAL_RATE else 0)
    let total_se_tax := ss_tax + medicare_tax
    (total_se_tax, total_se_tax / 2)

/-- Embedding of `calculate_niit`: the 3.8% net investment income surtax. -/
def calculate_niit (magi investment_income : ℚ) (fs : FilingStatus) : ℚ :=
  let threshold := (NIIT_THRESHOLD fs).getD 200000
  if magi ≤ threshold then 0
  else min (magi - threshold) investment_income * 0.038

/-- Embedding of `calculate_child_tax_credit` (counts are Python ints). -/
def calculate_child_tax_credit (children_under_17 children_17_plus : ℤ)
    (agi : ℚ) (fs : FilingStatus) : ℚ :=
  let credit : ℚ := (children_under_17 : ℚ) * 2000 + (children_17_plus : ℚ) * 500
  let threshold : ℚ := if fs = married_joint then 400000 else 200000
  if threshold < agi then
    max 0 (credit - (⌊(agi - threshold) / 1000⌋ : ℚ) * 50)
  else credit

/-- ASCII uppercasing of one character, the behaviour of the Python
`str.upper` on the ASCII range (identical to basic-latin `Char.toUpper`). -/
def upperChar (c : Char) : Char :=
  if 97 ≤ c.toNat ∧ c.toNat ≤ 122 then Char.ofNat (c.toNat - 32) else c

/-- The embedding of the Python `state.upper()`. -/
def pyUpper (s : String) : String := String.mk (s.data.map upperChar)

/-- Embedding of `calculate_state_tax`: flat rate by upper-cased state
code, 5% fallback for unknown codes. -/
def calculate_state_tax (taxable_income : ℚ) (state : String) : ℚ :=
  taxable_income * (STATE_TAX_RATES (pyUpper state)).getD 0.05

/-- Round-half-to-even of a rational to an integer (Python `round` on the
exact value). -/
def rne (x : ℚ) : ℤ :=
  let f := ⌊x⌋
  if x - f < 1 / 2 then f
  else if 1 / 2 < x - f then f + 1
  else if f % 2 = 0 then f else f + 1

/-- Python `round(x, 2)` on the exact value. -/
def round2 (x : ℚ) : ℚ := (rne (x * 100) : ℚ) / 100

/-- Python `round(x, 1)` on the exact value. -/
def round1 (x : ℚ) : ℚ := (rne (x * 10) : ℚ) / 10

/-- Embedding of the `TaxInput` dataclass, with its default field values. -/
structure TaxInput where
  wages : ℚ := 0
  self_employment : ℚ := 0
  interest : ℚ := 0
  dividends_qualified : ℚ := 0
  dividends_ordinary : ℚ := 0
  short_term_gains : ℚ := 0
  long_term_gains : ℚ := 0
  rental_income : ℚ := 0
  k1_income : ℚ := 0
  other_income : ℚ := 0
  mortgage_interest : ℚ := 0
  property_tax : ℚ := 0
  state_tax_paid : ℚ := 0
  charitable : ℚ := 0
  medical : ℚ := 0
  traditional_401k : ℚ := 0
  traditional_ira : ℚ := 0
  hsa : ℚ := 0
  children_under_17 : ℤ := 0
  children_17_plus : ℤ := 0
  education_expenses : ℚ := 0
  filing_status : FilingStatus := single
  state : String := "CA"
  age_65_plus : Bool := false
  spouse_age_65_plus : Bool := false

/-- Embedding of the `TaxResult` dataclass; the `breakdown` dict is an
association list. -/
structure TaxResult where
  gross_income : ℚ
  adjustments : ℚ
  agi : ℚ
  deductions : ℚ
  deduction_type : String
  taxable_income : ℚ
  federal_tax_ordinary : ℚ
  federal_tax_ltcg : ℚ
  federal_tax_total : ℚ
  effective_rate : ℚ
  marginal_rate : ℚ
  se_tax : ℚ
  se_deduction : ℚ
  state_tax : ℚ
  state : String
  child_tax_credit : ℚ
  education_credits : ℚ
  total_credits : ℚ
  total_tax : ℚ
  tax_after_credits : ℚ
  quarterly_estimate : ℚ
  breakdown : List (String × ℚ)

/-- Step 1 of `calculate_taxes`: gross income. -/
def grossIncome (t : TaxInput) : ℚ :=
  t.wages + t.self_employment + t.interest + t.dividends_qualified +
    t.dividends_ordinary + t.short_term_gains + t.long_term_gains +
    t.rental_income + t.k1_income + t.other_income

/-- Step 2 of `calculate_taxes`: the `(se_tax, se_deduction)` pair. -/
def seTaxPair (t : TaxInput) : ℚ × ℚ := calculate_se_tax t.self_employment

/-- Step 2 of `calculate_taxes`: above-the-line adjustments. -/
def adjustments (t : TaxInput) : ℚ :=
  (seTaxPair t).2 + t.traditional_ira + t.hsa

/-- Step 3 of `calculate_taxes`: adjusted gross income. -/
def agi (t : TaxInput) : ℚ := grossIncome t - adjustments t

/-- Step 4 of `calculate_taxes`: standard deduction with age-65 add-ons
(the add-on lookup uses default 1550 for statuses absent from
ADDITIONAL_DEDUCTION). -/
def standardDed (t : TaxInput) : ℚ :=
  STANDARD_DEDUCTION t.filing_status +
    (if t.age_65_plus then (ADDITIONAL_DEDUCTION t.filing_status).getD 1550 else 0) +
    (if t.spouse_age_65_plus ∧ t.filing_status = married_joint then
      (ADDITIONAL_DEDUCTION t.filing_status).getD 1550 else 0)

/-- Step 4 of `calculate_taxes`: the SALT-capped state and property tax. -/
def salt (t : TaxInput) : ℚ := min (t.property_tax + t.state_tax_paid) SALT_CAP

/-- Step 4 of `calculate_taxes`: deductible medical expenses. -/
def medicalDeductible (t : TaxInput) : ℚ := max 0 (t.medical - agi t * 0.075)

/-- Step 4 of `calculate_taxes`: itemized deduction total. -/
def itemized (t : TaxInput) : ℚ :=
  t.mortgage_interest + salt t + t.charitable + medicalDeductible t

/-- Step 4 of `calculate_taxes`: the larger of standard and itemized. -/
def deductions (t : TaxInput) : ℚ :=
  if standardDed t < itemized t then itemized t else standardDed t

/-- Step 4 of `calculate_taxes`: which deduction was chosen. -/
def deductionType (t : TaxInput) : String :=
  if standardDed t < itemized t then "itemized" else "standard"

/-- Step 5 of `calculate_taxes`: preferential income. -/
def preferentialIncome (t : TaxInput) : ℚ :=
  t.long_term_gains + t.dividends_qualified

/-- Step 5 of `calculate_taxes`: taxable income, clipped at zero. -/
def taxableIncome (t : TaxInput) : ℚ := max 0 (agi t - deductions t)

/-- Step 5 of `calculate_taxes`: ordinary taxable income, clipped at zero. -/
def ordinaryTaxable (t : TaxInput) : ℚ :=
  max 0 (taxableIncome t - preferentialIncome t)

/-- Step 6 of `calculate_taxes`: federal ordinary `(tax, marginal_rate)`. -/
def federalPair (t : TaxInput) : ℚ × ℚ :=
  calculate_federal_tax (ordinaryTaxable t) t.filing_status

/-- Step 6 of `calculate_taxes`: federal preferential-rate tax; note the
unclipped `taxableIncome` is what is passed in. -/
def federalLtcg (t : TaxInput) : ℚ :=
  calculate_ltcg_tax t.long_term_gains t.dividends_qualified
    (taxableIncome t) t.filing_status

/-- Ordinary-income floor used inside the preferential stacking walk:
`ordinary_income = taxable_income - total_ltcg` in `calculate_ltcg_tax`
at the arguments the orchestrator passes. -/
def stackingFloor (t : TaxInput) : ℚ :=
  taxableIncome t - preferentialIncome t

/-- Step 7 of `calculate_taxes`: investment income for NIIT. -/
def investmentIncome (t : TaxInput) : ℚ :=
  t.interest + t.dividends_qualified + t.dividends_ordinary +
    t.short_term_gains + t.long_term_gains + max 0 t.rental_income

/-- Step 7 of `calculate_taxes`: the NIIT amount. -/
def niitAmount (t : TaxInput) : ℚ :=
  calculate_niit (agi t) (investmentIncome t) t.filing_status

/-- Step 8 of `calculate_taxes`: state tax on taxable income. -/
def stateTax (t : TaxInput) : ℚ :=
  calculate_state_tax (taxableIncome t) t.state

/-- Step 9 of `calculate_taxes`: child tax credit. -/
def childCredit (t : TaxInput) : ℚ :=
  calculate_child_tax_credit t.children_under_17 t.children_17_plus
    (agi t) t.filing_status

/-- Step 9 of `calculate_taxes`: simplified education credit. -/
def educationCredit (t : TaxInput) : ℚ :=
  min (t.education_expenses * 0.2) 2000

/-- Step 9 of `calculate_taxes`: total credits. -/
def totalCredits (t : TaxInput) : ℚ := childCredit t + educationCredit t

/-- Step 10 of `calculate_taxes`: total tax before credits. -/
def totalTax (t : TaxInput) : ℚ :=
  ((federalPair t).1 + federalLtcg t) + (seTaxPair t).1 + niitAmount t + stateTax t

/-- Step 10 of `calculate_taxes`: tax after credits, clipped at zero. -/
def taxAfterCredits (t : TaxInput) : ℚ :=
  max 0 (totalTax t - totalCredits t)

/-- Step 10 of `calculate_taxes`: effective rate (zero unless gross
income is strictly positive). -/
def effectiveRate (t : TaxInput) : ℚ :=
  if 0 < grossIncome t then taxAfterCredits t / grossIncome t * 100 else 0

/-- Embedding of `calculate_taxes`: assembles the rounded result record. -/
def calculate_taxes (t : TaxInput) : TaxResult :=
  { gross_income := round2 (grossIncome t)
    adjustments := round2 (adjustments t)
    agi := round2 (agi t)
    deductions := round2 (deductions t)
    deduction_type := deductionType t
    taxable_income := round2 (taxableIncome t)
    federal_tax_ordinary := round2 (federalPair t).1
    federal_tax_ltcg := round2 (federalLtcg t)
    federal_tax_total := round2 ((federalPair t).1 + federalLtcg t)
    effective_rate := round2 (effectiveRate t)
    marginal_rate := round1 ((federalPair t).2 * 100)
    se_tax := round2 (seTaxPair t).1
    se_deduction := round2 (seTaxPair t).2
    state_tax := round2 (stateTax t)
    state := t.state
    child_tax_credit := round2 (childCredit t)
    education_credits := round2 (educationCredit t)
    total_credits := round2 (totalCredits t)
    total_tax := round2 (totalTax t)
    tax_after_credits := round2 (taxAfterCredits t)
    quarterly_estimate := round2 (taxAfterCredits t / 4)
    breakdown :=
      [("federal_ordinary", round2 (federalPair t).1),
       ("federal_ltcg", round2 (federalLtcg t)),
       ("se_tax", round2 (seTaxPair t).1),
       ("niit", round2 (niitAmount t)),
       ("state_tax", round2 (stateTax t)),
       ("credits_applied", round2 (totalCredits t))] }

/-!  Helper lemmas about the bracket walk. -/

/-- Ordering between a finite or infinite previous bound and the next
bracket bound; an infinite bound is never followed by another bracket. -/
def oleOB : Option ℚ → Option ℚ → Prop
  | none, _ => False
  | some _, none => True
  | some p, some b => p ≤ b

/-- Well-formedness of a bracket list relative to the previous bound:
rates are non-negative and bounds ascend. -/
def chainOK : Option ℚ → List Bracket → Prop
  | _, [] => True
  | prev, (b, r) :: rest => 0 ≤ r ∧ oleOB prev b ∧ chainOK b rest

theorem oval_some (v : ℚ) : oval (some v) = v := rfl

theorem leOB_eq_false {a : ℚ} {prev : Option ℚ} (h : ¬ leOB a prev = true) :
    ∃ p, prev = some p ∧ p < a := by
  cases prev with
  | none => simp [leOB] at h
  | some p =>
    refine ⟨p, rfl, ?_⟩
    simpa [leOB] using h

theorem obmin_ge {p a : ℚ} {b : Option ℚ} (hpb : oleOB (some p) b) (hpa : p ≤ a) :
    p ≤ obmin b a := by
  cases b with
  | none => simpa [obmin] using hpa
  | some v => simpa [obmin, oleOB] using ⟨(by simpa [oleOB] using hpb), hpa⟩

theorem obmin_mono (b : Option ℚ) {a1 a2 : ℚ} (h : a1 ≤ a2) :
    obmin b a1 ≤ obmin b a2 := by
  cases b with
  | none => simpa [obmin] using h
  | some v => exact min_le_min le_rfl h

theorem federalLoop_ge (bs : List Bracket) :
    ∀ (prev : Option ℚ) (tax marg ti : ℚ), chainOK prev bs →
      tax ≤ (federalLoop ti bs tax prev marg).1 := by
  induction bs with
  | nil => intro prev tax marg ti _; simp [federalLoop]
  | cons hd rest ih =>
    intro prev tax marg ti hchain
    obtain ⟨bmax, rate⟩ := hd
    obtain ⟨hr, hle, hrest⟩ := hchain
    by_cases h : leOB ti prev
    · simp [federalLoop, h]
    · simp only [federalLoop, h, if_neg, Bool.false_eq_true, if_false, oval_some]
      obtain ⟨p, hp, hpti⟩ := leOB_eq_false h
      subst hp
      have hslice : 0 ≤ (obmin bmax ti - p) * rate := by
        have hpm : p ≤ obmin bmax ti := obmin_ge hle hpti.le
        exact mul_nonneg (sub_nonneg.mpr hpm) hr
      calc tax ≤ tax + (obmin bmax ti - p) * rate := le_add_of_nonneg_right hslice
        _ ≤ _ := by simpa [oval_some] using ih bmax (tax + (obmin bmax ti - p) * rate) rate ti hrest

theorem federalLoop_mono (bs : List Bracket) :
    ∀ (prev : Option ℚ) (t1 t2 m1 m2 a1 a2 : ℚ), chainOK prev bs →
      a1 ≤ a2 → t1 ≤ t2 →
      (federalLoop a1 bs t1 prev m1).1 ≤ (federalLoop a2 bs t2 prev m2).1 := by
  induction bs with
  | nil => intro prev t1 t2 m1 m2 a1 a2 _ _ ht; simpa [federalLoop] using ht
  | cons hd rest ih =>
    intro prev t1 t2 m1 m2 a1 a2 hchain ha ht
    obtain ⟨bmax, rate⟩ := hd
    obtain ⟨hr, hle, hrest⟩ := hchain
    by_cases h1 : leOB a1 prev
    · by_cases h2 : leOB a2 prev
      · simpa [federalLoop, h1, h2] using ht
      · simp only [federalLoop, h1, if_true, h2, Bool.false_eq_true, if_false, oval_some]
        obtain ⟨p, hp, hpa⟩ := leOB_eq_false h2
        subst hp
        have hslice : 0 ≤ (obmin bmax a2 - p) * rate := by
          have hpm : p ≤ obmin bmax a2 := obmin_ge hle hpa.le
          exact mul_nonneg (sub_nonneg.mpr hpm) hr
        calc t1 ≤ t2 := ht
          _ ≤ t2 + (obmin bmax a2 - p) * rate := le_add_of_nonneg_right hslice
          _ ≤ _ := by
            simpa [oval_some] using
              federalLoop_ge rest bmax (t2 + (obmin bmax a2 - p) * rate) rate a2 hrest
    · have h2 : ¬ leOB a2 prev = true := by
        obtain ⟨p, hp, hpa⟩ := leOB_eq_false h1
        subst hp
        simpa [leOB] using not_le.mpr (lt_of_lt_of_le hpa ha)
      simp only [federalLoop, h1, h2, Bool.false_eq_true, if_false]
      refine ih bmax _ _ rate rate a1 a2 hrest ha ?_
      have hmin : obmin bmax a1 ≤ obmin bmax a2 := obmin_mono bmax ha
      have hmul := mul_le_mul_of_nonneg_right (sub_le_sub_right hmin (oval prev)) hr
      exact add_le_add ht hmul

theorem chainOK_federal (fs : FilingStatus) :
    chainOK (some 0) ((FEDERAL_BRACKETS fs).getD FEDERAL_SINGLE) := by
  cases fs <;> norm_num [FEDERAL_BRACKETS, FEDERAL_SINGLE, chainOK, oleOB]

/-!  Helper lemmas about ASCII uppercasing. -/

theorem upperChar_idem (c : Char) : upperChar (upperChar c) = upperChar c := by
  unfold upperChar
  by_cases h : 97 ≤ c.toNat ∧ c.toNat ≤ 122
  · rw [if_pos h]
    have hv : (c.toNat - 32).isValidChar := Or.inl (by omega)
    have ht : (Char.ofNat (c.toNat - 32)).toNat = c.toNat - 32 := by
      rw [Char.ofNat, dif_pos hv]; rfl
    rw [if_neg]
    rw [ht]
    omega
  · rw [if_neg h, if_neg h]

theorem pyUpper_idem (s : String) : pyUpper (pyUpper s) = pyUpper s := by
  simp only [pyUpper, String.data]
  rw [List.map_map]
  congr 1
  exact List.map_congr_left fun c _ => upperChar_idem c

/-!  Concrete inputs used by counterexamples and witnesses. -/

/-- Input whose only income is 100,000 of long-term gains. -/
def prefInput : TaxInput := { long_term_gains := 100000 }

/-- Input with wages and a small long-term gain. -/
def prefOkInput : TaxInput := { wages := 50000, long_term_gains := 10000 }

/-- Input with negative gross income but positive self-employment tax. -/
def negGrossInput : TaxInput := { wages := -200000, self_employment := 100000 }

/-- Input with positive wages only. -/
def posGrossInput : TaxInput := { wages := 50000 }

/-- Input with self-employment income of 100,000 only. -/
def seInput : TaxInput := { self_employment := 100000 }

/-!  Claims. -/

/-- C1 (counterexample): the claim that the preferential income used in
the stacking evaluation never exceeds `taxable_income` is false: for an
input whose only income is 100,000 of long-term gains, taxable income is
85,400 while the preferential amount passed to `calculate_ltcg_tax` is
100,000, so the ordinary floor `taxable_income - pref_total` inside the
preferential bracket walk is -14,600 < 0. -/
theorem claim_C1_counterexample :
    taxableIncome prefInput < preferentialIncome prefInput ∧
      stackingFloor prefInput < 0 := by
  constructor <;>
    · simp [prefInput, taxableIncome, preferentialIncome, stackingFloor, agi,
        grossIncome, adjustments, seTaxPair, calculate_se_tax, deductions,
        standardDed, itemized, salt, medicalDeductible, STANDARD_DEDUCTION,
        ADDITIONAL_DEDUCTION, SALT_CAP]
      norm_num [min_def, max_def]

/-- C1 (amended): whenever the preferential income does not exceed
`agi - deductions`, the preferential amount used for stacking is at most
`taxable_income` and the ordinary floor passed into the preferential
bracket walk is non-negative; `calculate_taxes` itself never clamps the
preferential amount. -/
theorem claim_C1 (t : TaxInput)
    (h : preferentialIncome t ≤ agi t - deductions t) :
    preferentialIncome t ≤ taxableIncome t ∧ 0 ≤ stackingFloor t := by
  have h1 : preferentialIncome t ≤ taxableIncome t := by
    calc preferentialIncome t ≤ agi t - deductions t := h
      _ ≤ max 0 (agi t - deductions t) := le_max_right 0 _
      _ = taxableIncome t := rfl
  exact ⟨h1, by simpa [stackingFloor] using sub_nonneg.mpr h1⟩

/-- C1 witness: the amended statement applied to a concrete input with
50,000 wages and 10,000 of long-term gains. -/
theorem claim_C1_witness :
    preferentialIncome prefOkInput ≤ taxableIncome prefOkInput ∧
      0 ≤ stackingFloor prefOkInput := by
  apply claim_C1 prefOkInput
  simp [prefOkInput, preferentialIncome, agi, grossIncome, adjustments,
    seTaxPair, calculate_se_tax, deductions, standardDed, itemized, salt,
    medicalDeductible, STANDARD_DEDUCTION, ADDITIONAL_DEDUCTION, SALT_CAP]
  norm_num [min_def, max_def]

/-- C2: `calculate_se_tax 100000` is exactly (14,129.55, 7,064.775);
the result record reports se_tax 14,129.55 and se_deduction rounded to
7,064.78; and every non-positive self-employment income yields (0, 0). -/
theorem claim_C2 :
    calculate_se_tax 100000 = (14129.55, 7064.775) ∧
    (calculate_taxes seInput).se_tax = 14129.55 ∧
    (calculate_taxes seInput).se_deduction = 7064.78 ∧
    ∀ x : ℚ, x ≤ 0 → calculate_se_tax x = (0, 0) := by
  refine ⟨?_, ?_, ?_, ?_⟩
  · simp [calculate_se_tax, SS_WAGE_BASE, MEDICARE_ADDITIONAL_RATE]
    norm_num [min_def]
  · simp [calculate_taxes, seInput, seTaxPair, calculate_se_tax, SS_WAGE_BASE,
      MEDICARE_ADDITIONAL_RATE, round2, rne]
    norm_num [Int.fract, min_def]
  · simp [calculate_taxes, seInput, seTaxPair, calculate_se_tax, SS_WAGE_BASE,
      MEDICARE_ADDITIONAL_RATE, round2, rne]
    norm_num [Int.fract, min_def]
  · intro x hx
    simp [calculate_se_tax, if_pos hx]

/-- C2 witness: the universally quantified part of C2 applied at -3. -/
theorem claim_C2_witness : calculate_se_tax (-3) = (0, 0) :=
  claim_C2.2.2.2 (-3) (by norm_num)

/-- C4: for a single filer whose 60,000 of taxable income is entirely
long-term gains the stacking evaluator returns exactly 1,946.25, and any
input with non-positive preferential total returns 0. -/
theorem claim_C4 :
    calculate_ltcg_tax 60000 0 60000 FilingStatus.single = 1946.25 ∧
    ∀ (l q ti : ℚ) (fs : FilingStatus), l + q ≤ 0 →
      calculate_ltcg_tax l q ti fs = 0 := by
  constructor
  · simp [calculate_ltcg_tax, LTCG_BRACKETS, LTCG_SINGLE, ltcgLoop, geOB,
      obmin, oval]
    norm_num [min_def, max_def]
  · intro l q ti fs h
    simp [calculate_ltcg_tax, if_pos h]

/-- C4 witness: the non-positive-preferential part of C4 at a concrete
input. -/
theorem claim_C4_witness :
    calculate_ltcg_tax (-5) 2 100 FilingStatus.single = 0 :=
  claim_C4.2 (-5) 2 100 FilingStatus.single (by norm_num)

/-- C5: a single filer with 50,000 of ordinary taxable income owes
exactly 6,053 of federal ordinary tax at marginal rate 22%. -/
theorem claim_C5 :
    calculate_federal_tax 50000 FilingStatus.single = (6053, 0.22) := by
  simp [calculate_federal_tax, FEDERAL_BRACKETS, FEDERAL_SINGLE, federalLoop,
    leOB, obmin, oval]
  norm_num [min_def]

/-- C6: for every filing status the ordinary federal bracket tax is
monotone on amounts 0 ≤ a1 ≤ a2, and the tax at 0 is 0. -/
theorem claim_C6 :
    (∀ (fs : FilingStatus) (a1 a2 : ℚ), 0 ≤ a1 → a1 ≤ a2 →
      (calculate_federal_tax a1 fs).1 ≤ (calculate_federal_tax a2 fs).1) ∧
    ∀ fs : FilingStatus, (calculate_federal_tax 0 fs).1 = 0 := by
  constructor
  · intro fs a1 a2 _ ha
    exact federalLoop_mono _ (some 0) 0 0 0.10 0.10 a1 a2 (chainOK_federal fs)
      ha le_rfl
  · intro fs
    cases fs <;>
      simp [calculate_federal_tax, FEDERAL_BRACKETS, FEDERAL_SINGLE,
        federalLoop, leOB]

/-- C6 witness: monotonicity at 1,000 ≤ 2,000 for a single filer, and the
zero-amount case. -/
theorem claim_C6_witness :
    (calculate_federal_tax 1000 FilingStatus.single).1 ≤
      (calculate_federal_tax 2000 FilingStatus.single).1 ∧
    (calculate_federal_tax 0 FilingStatus.single).1 = 0 :=
  ⟨claim_C6.1 FilingStatus.single 1000 2000 (by norm_num) (by norm_num),
   claim_C6.2 FilingStatus.single⟩

/-- C7: the child/dependent credit is the base 2000/500-per-dependent
amount, reduced above the filing-status threshold by 50 per full 1,000
of excess AGI and floored at 0; at 2 children under 17, AGI 250,000,
single filer, it is 1,500. -/
theorem claim_C7 :
    (∀ (u17 o17 : ℤ) (a : ℚ) (fs : FilingStatus),
      calculate_child_tax_credit u17 o17 a fs =
        (if (if fs = FilingStatus.married_joint then (400000 : ℚ) else 200000) < a
         then max 0 ((u17 : ℚ) * 2000 + (o17 : ℚ) * 500 -
           (⌊(a - if fs = FilingStatus.married_joint then (400000 : ℚ) else 200000) / 1000⌋ : ℚ) * 50)
         else (u17 : ℚ) * 2000 + (o17 : ℚ) * 500)) ∧
    calculate_child_tax_credit 2 0 250000 FilingStatus.single = 1500 := by
  constructor
  · intro u17 o17 a fs
    rfl
  · simp [calculate_child_tax_credit]
    norm_num [max_def]

/-- C3 (counterexample): for wages -200,000 and self-employment income
100,000 the gross income is -100,000 (non-zero) and tax after credits is
14,129.55, yet the reported effective rate is 0 rather than the claimed
ratio -14.13. -/
theorem claim_C3_counterexample :
    (calculate_taxes negGrossInput).gross_income ≠ 0 ∧
    (calculate_taxes negGrossInput).effective_rate ≠
      round2 ((calculate_taxes negGrossInput).tax_after_credits /
        (calculate_taxes negGrossInput).gross_income * 100) := by
  constructor <;>
    · simp [negGrossInput, calculate_taxes, effectiveRate, taxAfterCredits,
        totalTax, totalCredits, childCredit, educationCredit,
        calculate_child_tax_credit, niitAmount, calculate_niit, NIIT_THRESHOLD,
        investmentIncome, stateTax, calculate_state_tax, STATE_TAX_RATES,
        pyUpper, upperChar, federalPair, federalLtcg, calculate_federal_tax,
        calculate_ltcg_tax, FEDERAL_BRACKETS, FEDERAL_SINGLE, federalLoop,
        LTCG_BRACKETS, LTCG_SINGLE, ltcgLoop, leOB, geOB, obmin, oval,
        ordinaryTaxable, taxableIncome, preferentialIncome, agi, grossIncome,
        adjustments, seTaxPair, calculate_se_tax, SS_WAGE_BASE,
        MEDICARE_ADDITIONAL_RATE, deductions, standardDed, itemized, salt,
        medicalDeductible, STANDARD_DEDUCTION, ADDITIONAL_DEDUCTION, SALT_CAP,
        round2, rne]
      norm_num [Int.fract, min_def, max_def]

/-- C3 (amended): the effective_rate field equals the two-decimal
rounding of tax_after_credits / gross_income × 100 whenever gross income
is strictly positive, and is 0 whenever gross income is non-positive
(not merely when it is zero). -/
theorem claim_C3 (t : TaxInput) :
    (0 < grossIncome t →
      (calculate_taxes t).effective_rate =
        round2 (taxAfterCredits t / grossIncome t * 100)) ∧
    (grossIncome t ≤ 0 → (calculate_taxes t).effective_rate = 0) := by
  constructor
  · intro h
    show round2 (effectiveRate t) = _
    rw [effectiveRate, if_pos h]
  · intro h
    show round2 (effectiveRate t) = 0
    rw [effectiveRate, if_neg (not_lt.mpr h)]
    norm_num [round2, rne]

/-- C3 witness: the amended statement applied to an input with positive
gross income and to the negative-gross counterexample input. -/
theorem claim_C3_witness :
    (calculate_taxes posGrossInput).effective_rate =
      round2 (taxAfterCredits posGrossInput / grossIncome posGrossInput * 100) ∧
    (calculate_taxes negGrossInput).effective_rate = 0 :=
  ⟨(claim_C3 posGrossInput).1 (by norm_num [posGrossInput, grossIncome]),
   (claim_C3 negGrossInput).2 (by norm_num [negGrossInput, grossIncome])⟩

/-- C8: the orchestrator picks the larger of the standard (with age
add-ons) and itemized deductions, reports type "itemized" exactly when
itemized strictly exceeds standard, and the itemized amount is mortgage
interest plus SALT-capped taxes plus charitable plus the medical excess
over 7.5% of AGI. -/
theorem claim_C8 (t : TaxInput) :
    deductions t = max (standardDed t) (itemized t) ∧
    ((calculate_taxes t).deduction_type = "itemized" ↔
      standardDed t < itemized t) ∧
    itemized t = t.mortgage_interest +
      min (t.property_tax + t.state_tax_paid) 10000 + t.charitable +
      max 0 (t.medical - agi t * (75 / 1000)) := by
  refine ⟨?_, ?_, ?_⟩
  · by_cases h : standardDed t < itemized t
    · simp [deductions, h, max_eq_right h.le]
    · simp [deductions, h, max_eq_left (not_lt.mp h)]
  · show (deductionType t = "itemized") ↔ _
    by_cases h : standardDed t < itemized t
    · simp [deductionType, h]
    · simp [deductionType, h]
  · norm_num [itemized, salt, medicalDeductible, SALT_CAP]

/-- C9: filing statuses absent from the federal or preferential bracket
dictionaries are computed with the single-filer table, and a state code
whose upper-cased form is not in the rate table is taxed at the flat 5%
fallback rate. -/
theorem claim_C9 :
    (∀ (ti : ℚ) (fs : FilingStatus), FEDERAL_BRACKETS fs = none →
      calculate_federal_tax ti fs = calculate_federal_tax ti FilingStatus.single) ∧
    (∀ (l q ti : ℚ) (fs : FilingStatus), LTCG_BRACKETS fs = none →
      calculate_ltcg_tax l q ti fs = calculate_ltcg_tax l q ti FilingStatus.single) ∧
    (∀ (ti : ℚ) (s : String), STATE_TAX_RATES (pyUpper s) = none →
      calculate_state_tax ti s = ti * (5 / 100)) := by
  refine ⟨?_, ?_, ?_⟩
  · intro ti fs h
    unfold calculate_federal_tax
    rw [h]
    rfl
  · intro l q ti fs h
    unfold calculate_ltcg_tax
    rw [h]
    rfl
  · intro ti s h
    rw [calculate_state_tax, h]
    norm_num

/-- C9 witness: the qualifying-widow fallbacks and the 5% fallback for
the unknown state code "ZZ". -/
theorem claim_C9_witness :
    calculate_federal_tax 50000 FilingStatus.qualifying_widow =
      calculate_federal_tax 50000 FilingStatus.single ∧
    calculate_ltcg_tax 10000 0 60000 FilingStatus.qualifying_widow =
      calculate_ltcg_tax 10000 0 60000 FilingStatus.single ∧
    calculate_state_tax 1000 "ZZ" = 1000 * (5 / 100) :=
  ⟨claim_C9.1 50000 FilingStatus.qualifying_widow rfl,
   claim_C9.2.1 10000 0 60000 FilingStatus.qualifying_widow rfl,
   claim_C9.2.2 1000 "ZZ" (by decide)⟩

/-- C10: `calculate_state_tax` is invariant under upper-casing its state
argument, and the lowercase known code "ca" receives the California
table rate 13.3% rather than the 5% fallback. -/
theorem claim_C10 :
    (∀ (ti : ℚ) (s : String),
      calculate_state_tax ti s = calculate_state_tax ti (pyUpper s)) ∧
    ∀ ti : ℚ, calculate_state_tax ti "ca" = ti * (133 / 1000) := by
  constructor
  · intro ti s
    rw [calculate_state_tax, calculate_state_tax, pyUpper_idem]
  · intro ti
    have h : pyUpper "ca" = "CA" := by decide
    rw [calculate_state_tax, h]
    norm_num [STATE_TAX_RATES]

end TaxCalc
